import Mathlib

/-!
Verification of the `Neo4jContextProvider` adapter of the
`neo4j-maf-provider` repository.

The repository ships the adapter as a thin context provider: configuration
validation at construction, a connect/disconnect lifecycle flag, and a
"before run" hook that filters recent conversational messages, issues one
search against the backend, and publishes the formatted results under a
fixed context key.  The adapter module itself is not part of the source
tree here (only its test suite and demo callers are), so the definitions
below are modelled directly from the specification, faithful to its words,
and checked against the behaviour the test suite pins down.
-/

/-- A role-tagged text message of a run, as exposed by the run-session
protocol: a role string ("user", "assistant", "system") and free text. -/
structure Message where
  role : String
  text : String
deriving DecidableEq

/-- One search hit: free-text content (backend metadata is irrelevant to
the adapter logic and omitted). -/
structure RetrieverResultItem where
  content : String
deriving DecidableEq

/-- An ordered sequence of search hits, as returned by the backend. -/
structure RetrieverResult where
  items : List RetrieverResultItem
deriving DecidableEq

/-- The index modes of the adapter: vector, fulltext, or hybrid. -/
inductive IndexType where
  | vector
  | fulltext
  | hybrid
deriving DecidableEq

/-- Modelled from the spec: the default context-prompt header string; the
test suite only pins that it mentions "Knowledge Graph Context". -/
def defaultContextPrompt : String :=
  "## Knowledge Graph Context\nUse the following information from the knowledge graph to answer the question:"

/-- Modelled from the spec: the constructor options of
`Neo4jContextProvider` (index name, index type, optional fulltext index
name for hybrid mode, whether an embedding capability was supplied,
optional raw enrichment query, result-count limit, history window,
context-prompt header), with the defaults the test suite exhibits. -/
structure Neo4jConfig where
  index_name : Option String := none
  index_type : IndexType := .fulltext
  fulltext_index_name : Option String := none
  has_embedder : Bool := false
  retrieval_query : Option String := none
  top_k : Int := 5
  message_history_count : Nat := 10
  context_prompt : String := defaultContextPrompt
deriving DecidableEq

/-- Modelled from the spec: a validated provider instance.  It holds the
validated options plus the boolean readiness flag that reflects the
connection state (false until the scope is entered). -/
structure Neo4jContextProvider where
  index_name : String
  index_type : IndexType
  fulltext_index_name : Option String
  has_embedder : Bool
  retrieval_query : Option String
  top_k : Int
  message_history_count : Nat
  context_prompt : String
  is_connected : Bool
deriving DecidableEq

/-- Modelled from the spec: the configuration preconditions checked at
construction.  Each violated precondition is reported with the specific
message the test suite matches against. -/
def validationErrors (c : Neo4jConfig) : List String :=
  (if c.index_name = none then ["index_name is required"] else []) ++
  (if c.index_type = .hybrid ∧ c.fulltext_index_name = none then
     ["fulltext_index_name is required"] else []) ++
  (if (c.index_type = .vector ∨ c.index_type = .hybrid) ∧ c.has_embedder = false then
     ["embedder is required"] else []) ++
  (if c.top_k < 1 then ["top_k must be at least 1"] else [])

/-- Modelled from the spec: construction of the provider.  It fails
immediately, retaining no partial state, when any precondition is
violated, and otherwise yields a not-yet-connected instance holding the
validated options. -/
def mkProvider (c : Neo4jConfig) : Except (List String) Neo4jContextProvider :=
  if validationErrors c = [] then
    .ok { index_name := c.index_name.getD ""
          index_type := c.index_type
          fulltext_index_name := c.fulltext_index_name
          has_embedder := c.has_embedder
          retrieval_query := c.retrieval_query
          top_k := c.top_k
          message_history_count := c.message_history_count
          context_prompt := c.context_prompt
          is_connected := false }
  else .error (validationErrors c)

/-- The fixed context key under which the adapter publishes its entries. -/
def contextKey : String := "neo4j-context"

/-- Modelled from the spec: a message is kept for the search query exactly
when it is authored by the end user or by the assistant. -/
def isChatRole (m : Message) : Bool :=
  m.role = "user" || m.role = "assistant"

/-- The incoming messages restricted to user- and assistant-authored
ones. -/
def filteredMessages (msgs : List Message) : List Message :=
  msgs.filter isChatRole

/-- The trailing `message_history_count` of the filtered messages: only
these contribute to the search query. -/
def selectedMessages (p : Neo4jContextProvider) (msgs : List Message) :
    List Message :=
  let f := filteredMessages msgs
  f.drop (f.length - p.message_history_count)

/-- Modelled from the spec: the assembled search query, the newline-joined
text of the selected messages. -/
def buildQuery (p : Neo4jContextProvider) (msgs : List Message) : String :=
  String.intercalate "\n" ((selectedMessages p msgs).map Message.text)

/-- A string is blank when it is empty or whitespace-only, i.e. it strips
to the empty string. -/
def isBlank (s : String) : Bool :=
  s.data.all (fun c => c.isWhitespace)

/-- Modelled from the spec: the per-item formatted content published for
one search hit. -/
def formatResultItem (i : RetrieverResultItem) : String :=
  i.content

/-- The run context slot: a keyed mapping to ordered sequences of context
entries.  Publishing under a key replaces any prior value at that key. -/
abbrev ContextMessages := List (String × List String)

/-- Look up the value currently published under a key. -/
def lookupContext (ctx : ContextMessages) (k : String) : Option (List String) :=
  match ctx.find? (fun kv => kv.1 = k) with
  | some kv => some kv.2
  | none => none

/-- Publish a sequence under a key, replacing any prior value at that
key. -/
def publishContext (ctx : ContextMessages) (k : String) (v : List String) :
    ContextMessages :=
  (k, v) :: ctx

/-- Modelled from the spec: the "before run" hook.  Returns the updated
context slot together with the query of the single search call, when one
was issued (`none` means no search call was made).  Steps: skip when not
connected; assemble the query from the trailing window of user/assistant
messages; skip when the query is blank; otherwise issue exactly one
search; publish header plus per-item entries under the fixed key when
items came back, and leave the context untouched when none did. -/
def before_run (p : Neo4jContextProvider) (search : String → RetrieverResult)
    (msgs : List Message) (ctx : ContextMessages) :
    ContextMessages × Option String :=
  if p.is_connected = true then
    let q := buildQuery p msgs
    if isBlank q = true then (ctx, none)
    else
      let res := search q
      if res.items = [] then (ctx, some q)
      else (publishContext ctx contextKey
              (p.context_prompt :: res.items.map formatResultItem), some q)
  else (ctx, none)

/-! Concrete fixtures used by witnesses and counterexamples. -/

/-- A connected fulltext provider with the default options, as the tests
build (connection state patched to connected). -/
def connectedProvider : Neo4jContextProvider :=
  { index_name := "test_index"
    index_type := .fulltext
    fulltext_index_name := none
    has_embedder := false
    retrieval_query := none
    top_k := 5
    message_history_count := 10
    context_prompt := defaultContextPrompt
    is_connected := true }

/-- A backend returning the two items of the specification example. -/
def searchTwoItems : String → RetrieverResult :=
  fun _ => { items := [{ content := "Result about Acme Corp" },
                       { content := "Result about products" }] }

/-- A backend returning zero items. -/
def searchNoItems : String → RetrieverResult :=
  fun _ => { items := [] }

example : buildQuery connectedProvider [{ role := "user", text := "Tell me about Acme" }] =
    "Tell me about Acme" := by rfl

/-! Construction validation (claims about configuration errors). -/

/-- Whenever a precondition message is among the validation errors,
construction fails with an error list containing that message (and yields
no provider, retaining no partial state). -/
theorem mkProvider_error_of_mem (c : Neo4jConfig) (msg : String)
    (hmem : msg ∈ validationErrors c) :
    ∃ es, mkProvider c = .error es ∧ msg ∈ es := by
  have hne : validationErrors c ≠ [] := by
    intro he
    rw [he] at hmem
    exact absurd hmem (List.not_mem_nil _)
  exact ⟨validationErrors c, by simp [mkProvider, hne], hmem⟩

/-- C8: for every configuration missing an index name, construction fails
immediately with a configuration error naming the index name, retaining no
partial state. -/
theorem missing_index_name_rejected (c : Neo4jConfig)
    (h : c.index_name = none) :
    ∃ es, mkProvider c = .error es ∧ "index_name is required" ∈ es := by
  apply mkProvider_error_of_mem
  simp [validationErrors, h]

/-- Witness for C8 at the concrete configuration of the test: fulltext
index type and no index name. -/
theorem missing_index_name_rejected_witness :
    ∃ es, mkProvider { index_type := .fulltext } = .error es ∧
      "index_name is required" ∈ es :=
  missing_index_name_rejected { index_type := .fulltext } rfl

/-- C9: for every configuration with index type vector or hybrid and no
embedding capability supplied, construction fails with a configuration
error citing that an embedder is required. -/
theorem missing_embedder_rejected (c : Neo4jConfig)
    (ht : c.index_type = .vector ∨ c.index_type = .hybrid)
    (he : c.has_embedder = false) :
    ∃ es, mkProvider c = .error es ∧ "embedder is required" ∈ es := by
  apply mkProvider_error_of_mem
  rcases ht with h | h <;> simp [validationErrors, h, he]

/-- Witness for C9 at the concrete configuration of the test: vector index
type, an index name, and no embedder. -/
theorem missing_embedder_rejected_witness :
    ∃ es, mkProvider { index_name := some "test_index", index_type := .vector } =
        .error es ∧ "embedder is required" ∈ es :=
  missing_embedder_rejected
    { index_name := some "test_index", index_type := .vector }
    (Or.inl rfl) rfl

/-- C7: for every configuration with index type hybrid and no fulltext
index name supplied, construction fails with a configuration error citing
that the fulltext index name is required. -/
theorem hybrid_missing_fulltext_rejected (c : Neo4jConfig)
    (ht : c.index_type = .hybrid) (hf : c.fulltext_index_name = none) :
    ∃ es, mkProvider c = .error es ∧ "fulltext_index_name is required" ∈ es := by
  apply mkProvider_error_of_mem
  simp [validationErrors, ht, hf]

/-- Witness for C7 at the concrete configuration of the test: hybrid index
type, an index name, and no fulltext index name. -/
theorem hybrid_missing_fulltext_rejected_witness :
    ∃ es, mkProvider { index_name := some "test_vector_index", index_type := .hybrid } =
        .error es ∧ "fulltext_index_name is required" ∈ es :=
  hybrid_missing_fulltext_rejected
    { index_name := some "test_vector_index", index_type := .hybrid } rfl rfl

/-- C10: for every configuration whose result-count limit is less than 1,
construction fails with a configuration error citing that the limit must
be at least 1. -/
theorem top_k_below_one_rejected (c : Neo4jConfig) (h : c.top_k < 1) :
    ∃ es, mkProvider c = .error es ∧ "top_k must be at least 1" ∈ es := by
  apply mkProvider_error_of_mem
  simp [validationErrors, h]

/-- Witness for C10 at the concrete configuration of the test: fulltext
index type, an index name, and a zero result-count limit. -/
theorem top_k_below_one_rejected_witness :
    ∃ es, mkProvider { index_name := some "test_index", index_type := .fulltext, top_k := 0 } =
        .error es ∧ "top_k must be at least 1" ∈ es :=
  top_k_below_one_rejected
    { index_name := some "test_index", index_type := .fulltext, top_k := 0 }
    (by decide)

/-! The "before run" hook (claims about context injection). -/

/-- C6: construction yields a not-connected instance, and on a
not-connected provider the hook publishes no context, issues no search
call, and returns normally for every incoming message sequence. -/
theorem not_connected_is_no_op :
    (∀ (c : Neo4jConfig) (p : Neo4jContextProvider),
        mkProvider c = .ok p → p.is_connected = false) ∧
    (∀ (p : Neo4jContextProvider) (search : String → RetrieverResult)
        (msgs : List Message) (ctx : ContextMessages),
        p.is_connected = false → before_run p search msgs ctx = (ctx, none)) := by
  constructor
  · intro c p h
    unfold mkProvider at h
    split at h
    · cases h
      rfl
    · cases h
  · intro p search msgs ctx h
    simp [before_run, h]

/-- A freshly constructed fulltext provider, exactly as `mkProvider`
returns it for the test configuration. -/
def freshProvider : Neo4jContextProvider :=
  { index_name := "test_index"
    index_type := .fulltext
    fulltext_index_name := none
    has_embedder := false
    retrieval_query := none
    top_k := 5
    message_history_count := 10
    context_prompt := defaultContextPrompt
    is_connected := false }

/-- Witness for C6: the test configuration constructs `freshProvider`,
which reports not-connected, and the hook on it is a no-op on a non-empty
message sequence. -/
theorem not_connected_is_no_op_witness :
    mkProvider { index_name := some "test_index", index_type := .fulltext } =
        .ok freshProvider ∧
    freshProvider.is_connected = false ∧
    before_run freshProvider searchTwoItems
      [{ role := "user", text := "test query" }] [] = ([], none) :=
  ⟨rfl,
   not_connected_is_no_op.1 { index_name := some "test_index", index_type := .fulltext }
     freshProvider rfl,
   not_connected_is_no_op.2 freshProvider searchTwoItems
     [{ role := "user", text := "test query" }] [] rfl⟩

/-- C5: on a connected provider, when the assembled query is empty or
whitespace-only, the hook issues no search call and publishes no context
(the context slot is returned unchanged). -/
theorem blank_query_skips_search (p : Neo4jContextProvider)
    (search : String → RetrieverResult) (msgs : List Message)
    (ctx : ContextMessages) (hc : p.is_connected = true)
    (hb : isBlank (buildQuery p msgs) = true) :
    before_run p search msgs ctx = (ctx, none) := by
  simp [before_run, hc, hb]

/-- Witness for C5: the test input of one empty and one whitespace-only
user message on a connected provider. -/
theorem blank_query_skips_search_witness :
    before_run connectedProvider searchTwoItems
      [{ role := "user", text := "" }, { role := "user", text := "   " }] [] =
      ([], none) :=
  blank_query_skips_search connectedProvider searchTwoItems
    [{ role := "user", text := "" }, { role := "user", text := "   " }] []
    rfl (by decide)

/-- C3: whenever the hook issues a search call, the query it passes is the
newline-joined text of the selected messages, every one of which is
authored by the end user or by the assistant — system-authored text never
contributes. -/
theorem search_query_user_assistant_only (p : Neo4jContextProvider)
    (search : String → RetrieverResult) (msgs : List Message)
    (ctx : ContextMessages) (q : String)
    (hq : (before_run p search msgs ctx).2 = some q) :
    q = String.intercalate "\n" ((selectedMessages p msgs).map Message.text) ∧
    ∀ m ∈ selectedMessages p msgs, m.role = "user" ∨ m.role = "assistant" := by
  refine ⟨?_, ?_⟩
  · by_cases h1 : p.is_connected = true
    · by_cases h2 : isBlank (buildQuery p msgs) = true
      · simp [before_run, h1, h2] at hq
      · by_cases h3 : (search (buildQuery p msgs)).items = []
        · simp [before_run, h1, h2, h3] at hq
          exact hq.symm
        · simp [before_run, h1, h2, h3] at hq
          exact hq.symm
    · simp [before_run, h1] at hq
  · intro m hm
    have hm' : m ∈ (filteredMessages msgs).drop
        ((filteredMessages msgs).length - p.message_history_count) := hm
    have hmem : m ∈ filteredMessages msgs := List.mem_of_mem_drop hm'
    have hrole : isChatRole m = true := (List.mem_filter.mp hmem).2
    simpa [isChatRole] using hrole

/-- The interleaved system, user and assistant messages of the
specification example. -/
def interleavedMessages : List Message :=
  [{ role := "system", text := "You are a helpful assistant" },
   { role := "user", text := "What about Acme?" },
   { role := "assistant", text := "Acme is a company." }]

/-- Witness for C3: on the interleaved example, the query passed to the
search is exactly the user and assistant text, and every selected message
is user- or assistant-authored. -/
theorem search_query_user_assistant_only_witness :
    ("What about Acme?\nAcme is a company." =
      String.intercalate "\n"
        ((selectedMessages connectedProvider interleavedMessages).map Message.text)) ∧
    ∀ m ∈ selectedMessages connectedProvider interleavedMessages,
      m.role = "user" ∨ m.role = "assistant" :=
  search_query_user_assistant_only connectedProvider searchTwoItems
    interleavedMessages [] "What about Acme?\nAcme is a company." (by decide)

/-- A connected provider with a history window of two messages, as the
window test builds. -/
def windowTwoProvider : Neo4jContextProvider :=
  { index_name := "test_index"
    index_type := .fulltext
    fulltext_index_name := none
    has_embedder := false
    retrieval_query := none
    top_k := 5
    message_history_count := 2
    context_prompt := defaultContextPrompt
    is_connected := true }

/-- Five sequential user messages, "first" through "fifth". -/
def fiveMessages : List Message :=
  [{ role := "user", text := "first" },
   { role := "user", text := "second" },
   { role := "user", text := "third" },
   { role := "user", text := "fourth" },
   { role := "user", text := "fifth" }]

/-- C4: only the trailing window of the filtered messages contributes to
the query: the selected messages are a suffix of the filtered ones of
length `min N len`, the query is their joined text, and on the concrete
five-message example with window two the query holds the text of the
fourth and fifth messages and none of the first three. -/
theorem trailing_window_only (p : Neo4jContextProvider) (msgs : List Message) :
    ((selectedMessages p msgs).length =
        min p.message_history_count (filteredMessages msgs).length ∧
      selectedMessages p msgs <:+ filteredMessages msgs ∧
      buildQuery p msgs =
        String.intercalate "\n" ((selectedMessages p msgs).map Message.text)) ∧
    (buildQuery windowTwoProvider fiveMessages = "fourth\nfifth" ∧
      "fourth".data <:+: (buildQuery windowTwoProvider fiveMessages).data ∧
      "fifth".data <:+: (buildQuery windowTwoProvider fiveMessages).data ∧
      ¬ "first".data <:+: (buildQuery windowTwoProvider fiveMessages).data ∧
      ¬ "second".data <:+: (buildQuery windowTwoProvider fiveMessages).data ∧
      ¬ "third".data <:+: (buildQuery windowTwoProvider fiveMessages).data) := by
  constructor
  · refine ⟨?_, ?_, rfl⟩
    · show ((filteredMessages msgs).drop
          ((filteredMessages msgs).length - p.message_history_count)).length = _
      rw [List.length_drop]
      omega
    · exact List.drop_suffix _ _
  · exact ⟨rfl, by decide, by decide, by decide, by decide, by decide⟩

/-- C1: on a connected provider, when the assembled query is non-blank and
the search returns a non-empty item sequence, the hook publishes under the
fixed key "neo4j-context" — replacing any prior value there — the ordered
sequence whose head is the configured header string and whose tail is the
per-item formatted content, one entry per result, in backend order. -/
theorem nonempty_results_published (p : Neo4jContextProvider)
    (search : String → RetrieverResult) (msgs : List Message)
    (ctx : ContextMessages) (hc : p.is_connected = true)
    (hb : isBlank (buildQuery p msgs) = false)
    (hi : (search (buildQuery p msgs)).items ≠ []) :
    lookupContext (before_run p search msgs ctx).1 contextKey =
      some (p.context_prompt ::
        (search (buildQuery p msgs)).items.map formatResultItem) := by
  simp [before_run, hc, hb, hi, publishContext, lookupContext, List.find?]

/-- Witness for C1: the two-item example, published over a prior value
under the key, yields header plus the two entries in order (three
entries). -/
theorem nonempty_results_published_witness :
    lookupContext (before_run connectedProvider searchTwoItems
        [{ role := "user", text := "Tell me about Acme" }]
        [(contextKey, ["old entry"])]).1 contextKey =
      some [defaultContextPrompt, "Result about Acme Corp", "Result about products"] := by
  have h := nonempty_results_published connectedProvider searchTwoItems
    [{ role := "user", text := "Tell me about Acme" }]
    [(contextKey, ["old entry"])] rfl (by decide) (by decide)
  exact h

/-- Counterexample for C2 as stated: on zero results the hook leaves a
previously published value under the key in place, so the run does not end
with none under the key. -/
theorem zero_results_prior_context_kept :
    lookupContext (before_run connectedProvider searchNoItems
        [{ role := "user", text := "test query" }]
        [(contextKey, ["stale entry"])]).1 contextKey = some ["stale entry"] ∧
    lookupContext (before_run connectedProvider searchNoItems
        [{ role := "user", text := "test query" }]
        [(contextKey, ["stale entry"])]).1 contextKey ≠ none := by
  exact ⟨by decide, by decide⟩

/-- C2 (amended): on a connected provider with a non-blank query, when the
search returns zero items the hook publishes nothing and returns the
context slot unchanged — in particular a run that started with nothing
under the key ends with nothing, while a previously published value is
left untouched. -/
theorem zero_results_leaves_context_unchanged (p : Neo4jContextProvider)
    (search : String → RetrieverResult) (msgs : List Message)
    (ctx : ContextMessages) (hc : p.is_connected = true)
    (hb : isBlank (buildQuery p msgs) = false)
    (hi : (search (buildQuery p msgs)).items = []) :
    (before_run p search msgs ctx).1 = ctx := by
  simp [before_run, hc, hb, hi]

/-- Witness for C2 (amended): the zero-result test input on an empty
context slot leaves it empty. -/
theorem zero_results_leaves_context_unchanged_witness :
    (before_run connectedProvider searchNoItems
        [{ role := "user", text := "test query" }] []).1 = ([] : ContextMessages) :=
  zero_results_leaves_context_unchanged connectedProvider searchNoItems
    [{ role := "user", text := "test query" }] [] rfl (by decide) rfl
